import Mathlib

/-!
Digital stopwatch with count modes (ATmega32): shallow embedding.

Source: `src/Stopwatch_Project.c`.

The program keeps all of its state in global `unsigned char` variables and in
the bits of the I/O registers.  Every global is a `Nat` field of `State`
(increments wrap modulo 256), and the bits of `PORTD`/`DDRD` the main loop
drives are `Bool` fields.  Each interrupt handler and each
block of the `while (1)` loop of `main` is a function `State → State`; the
level read on an input pin is an argument of the block that samples it.

The display multiplexing loop (lines 232-259) only writes `PORTA` and `PORTC`
and reads the six digit cells; it changes nothing that is modelled here.
-/

namespace Stopwatch

/-- Increment of an `unsigned char` (`++x`, `x++`): wraps modulo 256. -/
def incr (x : Nat) : Nat := (x + 1) % 256

/-- The global variables of the program (lines 26-48) and the bits of port D
that the main loop drives: `PD0` (alarm), `PD4` and `PD5` (mode indicators). -/
structure State where
  secondsUNITS : Nat
  secondsTENS : Nat
  minutesUNITS : Nat
  minutesTENS : Nat
  hoursUNITS : Nat
  hoursTENS : Nat
  pauseFlag : Nat
  isr : Nat
  incrementHoursFlag : Nat
  incrementMinutesFlag : Nat
  incrementSecondsFlag : Nat
  decrementHoursFlag : Nat
  decrementMinutesFlag : Nat
  decrementSecondsFlag : Nat
  countMode : Nat
  toggleFlag : Nat
  ddrdPD0 : Bool
  portdPD0 : Bool
  portdPD4 : Bool
  portdPD5 : Bool
  deriving DecidableEq

/-- State on entry to the `while (1)` loop: every global is initialised to 0
(lines 26-48), `PD4`/`PD5` are cleared (line 129), and `PD0` still has its
power-on value (input, low). -/
def initialState : State :=
  { secondsUNITS := 0, secondsTENS := 0, minutesUNITS := 0, minutesTENS := 0,
    hoursUNITS := 0, hoursTENS := 0, pauseFlag := 0, isr := 0,
    incrementHoursFlag := 0, incrementMinutesFlag := 0, incrementSecondsFlag := 0,
    decrementHoursFlag := 0, decrementMinutesFlag := 0, decrementSecondsFlag := 0,
    countMode := 0, toggleFlag := 0,
    ddrdPD0 := false, portdPD0 := false, portdPD4 := false, portdPD5 := false }

/-! ## Assignments

One function per variable: `s.setX v` is the state after the assignment `X = v`. -/

/-- The assignment `secondsUNITS = v`. -/
def State.setSecondsUNITS (s : State) (v : Nat) : State :=
  { s with secondsUNITS := v }

/-- The assignment `secondsTENS = v`. -/
def State.setSecondsTENS (s : State) (v : Nat) : State :=
  { s with secondsTENS := v }

/-- The assignment `minutesUNITS = v`. -/
def State.setMinutesUNITS (s : State) (v : Nat) : State :=
  { s with minutesUNITS := v }

/-- The assignment `minutesTENS = v`. -/
def State.setMinutesTENS (s : State) (v : Nat) : State :=
  { s with minutesTENS := v }

/-- The assignment `hoursUNITS = v`. -/
def State.setHoursUNITS (s : State) (v : Nat) : State :=
  { s with hoursUNITS := v }

/-- The assignment `hoursTENS = v`. -/
def State.setHoursTENS (s : State) (v : Nat) : State :=
  { s with hoursTENS := v }

/-- The assignment `pauseFlag = v`. -/
def State.setPauseFlag (s : State) (v : Nat) : State :=
  { s with pauseFlag := v }

/-- The assignment `isr = v`. -/
def State.setIsr (s : State) (v : Nat) : State :=
  { s with isr := v }

/-- The assignment `incrementHoursFlag = v`. -/
def State.setIncrementHoursFlag (s : State) (v : Nat) : State :=
  { s with incrementHoursFlag := v }

/-- The assignment `incrementMinutesFlag = v`. -/
def State.setIncrementMinutesFlag (s : State) (v : Nat) : State :=
  { s with incrementMinutesFlag := v }

/-- The assignment `incrementSecondsFlag = v`. -/
def State.setIncrementSecondsFlag (s : State) (v : Nat) : State :=
  { s with incrementSecondsFlag := v }

/-- The assignment `decrementHoursFlag = v`. -/
def State.setDecrementHoursFlag (s : State) (v : Nat) : State :=
  { s with decrementHoursFlag := v }

/-- The assignment `decrementMinutesFlag = v`. -/
def State.setDecrementMinutesFlag (s : State) (v : Nat) : State :=
  { s with decrementMinutesFlag := v }

/-- The assignment `decrementSecondsFlag = v`. -/
def State.setDecrementSecondsFlag (s : State) (v : Nat) : State :=
  { s with decrementSecondsFlag := v }

/-- The assignment `countMode = v`. -/
def State.setCountMode (s : State) (v : Nat) : State :=
  { s with countMode := v }

/-- The assignment `toggleFlag = v`. -/
def State.setToggleFlag (s : State) (v : Nat) : State :=
  { s with toggleFlag := v }

/-- Writing bit `PD0` of `DDRD`. -/
def State.setDdrdPD0 (s : State) (v : Bool) : State :=
  { s with ddrdPD0 := v }

/-- Writing bit `PD0` of `PORTD`. -/
def State.setPortdPD0 (s : State) (v : Bool) : State :=
  { s with portdPD0 := v }

/-- Writing bit `PD4` of `PORTD`. -/
def State.setPortdPD4 (s : State) (v : Bool) : State :=
  { s with portdPD4 := v }

/-- Writing bit `PD5` of `PORTD`. -/
def State.setPortdPD5 (s : State) (v : Bool) : State :=
  { s with portdPD5 := v }

/-! ## Interrupt handlers -/

/-- `ISR(TIMER1_COMPA_vect)`, lines 61-64. -/
def TIMER1_COMPA_vect (s : State) : State :=
  s.setIsr 1

/-- `ISR(INT0_vect)`, lines 75-84: the reset button. -/
def INT0_vect (s : State) : State :=
  { s with secondsUNITS := 0, secondsTENS := 0, minutesUNITS := 0,
           minutesTENS := 0, hoursUNITS := 0, hoursTENS := 0 }

/-- `ISR(INT1_vect)`, lines 95-98: the pause button. -/
def INT1_vect (s : State) : State :=
  s.setPauseFlag 1

/-- `ISR(INT2_vect)`, lines 109-112: the resume button. -/
def INT2_vect (s : State) : State :=
  s.setPauseFlag 0

/-! ## The tick block of the main loop (lines 135-229) -/

/-- Lines 161-165: `else if (++hoursUNITS == 10) { hoursUNITS = 0; hoursTENS++; }`. -/
def hoursElseIf (s : State) : State :=
  let s := s.setHoursUNITS (incr s.hoursUNITS)
  if s.hoursUNITS = 10 then
    let s := s.setHoursUNITS 0
    s.setHoursTENS (incr s.hoursTENS)
  else s

/-- Lines 156-165.  The condition `hoursTENS == 2 && ++hoursUNITS == 4`
short-circuits: `hoursUNITS` is incremented exactly when `hoursTENS == 2`, and
the `else if` is evaluated whenever the whole condition is false. -/
def hoursCarry (s : State) : State :=
  if s.hoursTENS = 2 then
    let s := s.setHoursUNITS (incr s.hoursUNITS)
    if s.hoursUNITS = 4 then
      let s := s.setHoursTENS 0
      s.setHoursUNITS 0
    else hoursElseIf s
  else hoursElseIf s

/-- The count-up branch, lines 141-169 (`advance_one_second` in the
specification). -/
def advance_one_second (s : State) : State :=
  let s := s.setDdrdPD0 true
  let s := s.setPortdPD0 false
  let s := s.setSecondsUNITS (incr s.secondsUNITS)
  if s.secondsUNITS = 10 then
    let s := s.setSecondsUNITS 0
    let s := s.setSecondsTENS (incr s.secondsTENS)
    if s.secondsTENS = 6 then
      let s := s.setSecondsTENS 0
      let s := s.setMinutesUNITS (incr s.minutesUNITS)
      if s.minutesUNITS = 10 then
        let s := s.setMinutesUNITS 0
        let s := s.setMinutesTENS (incr s.minutesTENS)
        if s.minutesTENS = 6 then
          let s := s.setMinutesTENS 0
          hoursCarry s
        else s
      else s
    else s
  else s

/-- The count-down branch, lines 173-225 (`retreat_one_second` in the
specification). -/
def retreat_one_second (s : State) : State :=
  if s.secondsUNITS > 0 then
    s.setSecondsUNITS (s.secondsUNITS - 1)
  else if s.secondsTENS > 0 then
    let s := s.setSecondsTENS (s.secondsTENS - 1)
    s.setSecondsUNITS 9
  else if s.minutesUNITS > 0 ∨ s.minutesTENS > 0 then
    let s :=
      if s.minutesUNITS > 0 then
        s.setMinutesUNITS (s.minutesUNITS - 1)
      else
        let s := s.setMinutesTENS (s.minutesTENS - 1)
        s.setMinutesUNITS 9
    let s := s.setSecondsTENS 5
    s.setSecondsUNITS 9
  else if s.hoursUNITS > 0 ∨ s.hoursTENS > 0 then
    let s :=
      if s.hoursUNITS > 0 then
        s.setHoursUNITS (s.hoursUNITS - 1)
      else
        let s := s.setHoursTENS (s.hoursTENS - 1)
        s.setHoursUNITS 9
    let s := s.setMinutesTENS 5
    let s := s.setMinutesUNITS 9
    let s := s.setSecondsTENS 5
    s.setSecondsUNITS 9
  else
    let s := s.setDdrdPD0 true
    s.setPortdPD0 true

/-- Lines 135-229: `if (isr == 1) { if (pauseFlag == 0) { ... } isr = 0; }`. -/
def tickBlock (s : State) : State :=
  if s.isr = 1 then
    let s :=
      if s.pauseFlag = 0 then
        if s.countMode = 0 then advance_one_second s
        else retreat_one_second s
      else s
    s.setIsr 0
  else s

/-- One tick: the timer interrupt sets `isr`, and the main loop then runs its
tick block (`on_tick` in the specification). -/
def on_tick (s : State) : State :=
  tickBlock (TIMER1_COMPA_vect s)

/-- Processing of `n` successive ticks. -/
def ticks : Nat → State → State
  | 0, s => s
  | n + 1, s => ticks n (on_tick s)

/-! ## The button blocks of the main loop (lines 262-470)

Each block samples its pin twice, 30 ms apart.  `p1` and `p2` say whether the
first and the second sample read the line low (button pressed). -/

/-- Lines 262-282: hour increment, `PB1`. -/
def pollIncrementHours (p1 p2 : Bool) (s : State) : State :=
  if p1 then
    if p2 then
      if s.incrementHoursFlag = 0 then
        let s := s.setIncrementHoursFlag 1
        let s := s.setHoursUNITS (incr s.hoursUNITS)
        if s.hoursUNITS = 10 then
          let s := s.setHoursUNITS 0
          s.setHoursTENS (incr s.hoursTENS)
        else s
      else s
    else s
  else s.setIncrementHoursFlag 0

/-- Lines 285-305: minute increment, `PB4`. -/
def pollIncrementMinutes (p1 p2 : Bool) (s : State) : State :=
  if p1 then
    if p2 then
      if s.incrementMinutesFlag = 0 then
        let s := s.setIncrementMinutesFlag 1
        let s := s.setMinutesUNITS (incr s.minutesUNITS)
        if s.minutesUNITS = 10 then
          let s := s.setMinutesUNITS 0
          s.setMinutesTENS (incr s.minutesTENS)
        else s
      else s
    else s
  else s.setIncrementMinutesFlag 0

/-- Lines 308-328: second increment, `PB6`. -/
def pollIncrementSeconds (p1 p2 : Bool) (s : State) : State :=
  if p1 then
    if p2 then
      if s.incrementSecondsFlag = 0 then
        let s := s.setIncrementSecondsFlag 1
        let s := s.setSecondsUNITS (incr s.secondsUNITS)
        if s.secondsUNITS = 10 then
          let s := s.setSecondsUNITS 0
          s.setSecondsTENS (incr s.secondsTENS)
        else s
      else s
    else s
  else s.setIncrementSecondsFlag 0

/-- Lines 331-375: second decrement, `PB5`. -/
def pollDecrementSeconds (p1 p2 : Bool) (s : State) : State :=
  if p1 then
    if p2 then
      if s.decrementSecondsFlag = 0 then
        let s := s.setDecrementSecondsFlag 1
        if s.secondsUNITS > 0 then
          s.setSecondsUNITS (s.secondsUNITS - 1)
        else if s.secondsTENS > 0 then
          let s := s.setSecondsTENS (s.secondsTENS - 1)
          s.setSecondsUNITS 9
        else if s.minutesUNITS > 0 ∨ s.minutesTENS > 0 then
          let s :=
            if s.minutesUNITS > 0 then
              s.setMinutesUNITS (s.minutesUNITS - 1)
            else
              let s := s.setMinutesTENS (s.minutesTENS - 1)
              s.setMinutesUNITS 9
          let s := s.setSecondsTENS 5
          s.setSecondsUNITS 9
        else s
      else s
    else s
  else s.setDecrementSecondsFlag 0

/-- Lines 378-423: minute decrement, `PB3`. -/
def pollDecrementMinutes (p1 p2 : Bool) (s : State) : State :=
  if p1 then
    if p2 then
      if s.decrementMinutesFlag = 0 then
        let s := s.setDecrementMinutesFlag 1
        if s.minutesUNITS > 0 then
          s.setMinutesUNITS (s.minutesUNITS - 1)
        else if s.minutesTENS > 0 then
          let s := s.setMinutesTENS (s.minutesTENS - 1)
          s.setMinutesUNITS 9
        else if s.hoursUNITS > 0 ∨ s.hoursTENS > 0 then
          let s :=
            if s.hoursUNITS > 0 then
              s.setHoursUNITS (s.hoursUNITS - 1)
            else
              let s := s.setHoursTENS (s.hoursTENS - 1)
              s.setHoursUNITS 9
          let s := s.setMinutesTENS 5
          let s := s.setMinutesUNITS 9
          s.setSecondsUNITS 9
        else s
      else s
    else s
  else s.setDecrementMinutesFlag 0

/-- Lines 426-452: hour decrement, `PB0`. -/
def pollDecrementHours (p1 p2 : Bool) (s : State) : State :=
  if p1 then
    if p2 then
      if s.decrementHoursFlag = 0 then
        let s := s.setDecrementHoursFlag 1
        if s.hoursUNITS > 0 then
          s.setHoursUNITS (s.hoursUNITS - 1)
        else if s.hoursTENS > 0 then
          let s := s.setHoursTENS (s.hoursTENS - 1)
          s.setHoursUNITS 9
        else s
      else s
    else s
  else s.setDecrementHoursFlag 0

/-- Lines 455-470: count-mode toggle, `PB7` (`countMode ^= (1 << 0)`). -/
def pollToggle (p1 p2 : Bool) (s : State) : State :=
  if p1 then
    if p2 then
      if s.toggleFlag = 0 then
        let s := s.setToggleFlag 1
        s.setCountMode (Nat.xor s.countMode 1)
      else s
    else s
  else s.setToggleFlag 0

/-- Lines 473-482: the mode indicator LEDs on `PD4`/`PD5`. -/
def modeIndicator (s : State) : State :=
  if s.countMode = 1 then
    let s := s.setPortdPD5 true
    s.setPortdPD4 false
  else
    let s := s.setPortdPD4 true
    s.setPortdPD5 false

/-- The seven polled input lines, in the order the main loop scans them. -/
inductive Line where
  | incHours | incMinutes | incSeconds | decSeconds | decMinutes | decHours | toggle
  deriving DecidableEq

/-- The button block of the given line. -/
def poll : Line → Bool → Bool → State → State
  | .incHours => pollIncrementHours
  | .incMinutes => pollIncrementMinutes
  | .incSeconds => pollIncrementSeconds
  | .decSeconds => pollDecrementSeconds
  | .decMinutes => pollDecrementMinutes
  | .decHours => pollDecrementHours
  | .toggle => pollToggle

/-- The levels sampled during one iteration of the main loop: for every line the
first sample and the sample taken after the 30 ms delay. -/
structure Samples where
  first : Line → Bool
  second : Line → Bool

/-- One iteration of the body of `while (1)`, lines 135-482. -/
def mainLoopBody (p : Samples) (s : State) : State :=
  let s := tickBlock s
  let s := pollIncrementHours (p.first .incHours) (p.second .incHours) s
  let s := pollIncrementMinutes (p.first .incMinutes) (p.second .incMinutes) s
  let s := pollIncrementSeconds (p.first .incSeconds) (p.second .incSeconds) s
  let s := pollDecrementSeconds (p.first .decSeconds) (p.second .decSeconds) s
  let s := pollDecrementMinutes (p.first .decMinutes) (p.second .decMinutes) s
  let s := pollDecrementHours (p.first .decHours) (p.second .decHours) s
  let s := pollToggle (p.first .toggle) (p.second .toggle) s
  modeIndicator s

/-! ## Events and runs -/

/-- The events the engine reacts to: a timer tick processed by the main loop,
the three external interrupts, and one poll of an input line. -/
inductive Event where
  | tick
  | reset
  | pause
  | resume
  | poll (l : Line) (p1 p2 : Bool)
  deriving DecidableEq

/-- Effect of one event. -/
def step (s : State) : Event → State
  | .tick => on_tick s
  | .reset => INT0_vect s
  | .pause => INT1_vect s
  | .resume => INT2_vect s
  | .poll l p1 p2 => poll l p1 p2 s

/-- Effect of a finite sequence of events, in order. -/
def run (s : State) (evs : List Event) : State :=
  evs.foldl step s

/-! ## Observations -/

/-- The six digit cells, most significant first. -/
def digits (s : State) : Nat × Nat × Nat × Nat × Nat × Nat :=
  (s.hoursTENS, s.hoursUNITS, s.minutesTENS, s.minutesUNITS, s.secondsTENS, s.secondsUNITS)

/-- The displayed time as a number of seconds. -/
def totalSeconds (s : State) : Nat :=
  ((s.hoursTENS * 10 + s.hoursUNITS) * 60 + (s.minutesTENS * 10 + s.minutesUNITS)) * 60
    + (s.secondsTENS * 10 + s.secondsUNITS)

/-- Every digit cell is in its declared range and the hours are at most 23. -/
def validTime (s : State) : Prop :=
  s.secondsUNITS ≤ 9 ∧ s.secondsTENS ≤ 5 ∧ s.minutesUNITS ≤ 9 ∧ s.minutesTENS ≤ 5 ∧
    s.hoursUNITS ≤ 9 ∧ s.hoursTENS ≤ 2 ∧ s.hoursTENS * 10 + s.hoursUNITS ≤ 23

instance (s : State) : Decidable (validTime s) := by
  unfold validTime; infer_instance

/-- The alarm output: `PD0` configured as an output and driven high. -/
def alarm (s : State) : Bool :=
  s.ddrdPD0 && s.portdPD0

/-- The state showing `ht hu : mt mu : st su`, otherwise as on entry to the loop. -/
def atTime (ht hu mt mu st su : Nat) : State :=
  { initialState with hoursTENS := ht, hoursUNITS := hu, minutesTENS := mt,
                      minutesUNITS := mu, secondsTENS := st, secondsUNITS := su }

/-- The two hour cells, tens first. -/
def hourCells (s : State) : Nat × Nat :=
  (s.hoursTENS, s.hoursUNITS)

/-- The minutes and seconds cells as a number of seconds within the hour. -/
def secondsOfHour (s : State) : Nat :=
  (s.minutesTENS * 10 + s.minutesUNITS) * 60 + (s.secondsTENS * 10 + s.secondsUNITS)

/-- The four minutes and seconds cells are in their declared ranges. -/
def validMinSec (s : State) : Prop :=
  s.secondsUNITS ≤ 9 ∧ s.secondsTENS ≤ 5 ∧ s.minutesUNITS ≤ 9 ∧ s.minutesTENS ≤ 5

/-- What lines 156-165 (`hoursCarry`) make of the hour cells `h`. -/
def nextHour (h : Nat × Nat) : Nat × Nat :=
  hourCells (hoursCarry (atTime h.1 h.2 0 0 0 0))

/-- Running in count-up mode and showing `h:00:00`. -/
def onTheHour (h : Nat × Nat) (s : State) : Prop :=
  s.pauseFlag = 0 ∧ s.countMode = 0 ∧ hourCells s = h ∧ secondsOfHour s = 0

/-- The state showing `ht hu : mt mu : st su` in count-down mode (`countMode = 1`),
otherwise as on entry to the loop. -/
def atTimeDown (ht hu mt mu st su : Nat) : State :=
  { atTime ht hu mt mu st su with countMode := 1 }

/-- The sequence `evs`, processed from state `s`, contains no reset and
processes no tick while running (`pauseFlag = 0`) in count-up mode
(`countMode = 0`). -/
def keepsAlarm : State → List Event → Prop
  | _, [] => True
  | s, e :: es =>
      e ≠ Event.reset ∧ ¬ (e = Event.tick ∧ s.pauseFlag = 0 ∧ s.countMode = 0) ∧
        keepsAlarm (step s e) es

/-- Decision procedure for `keepsAlarm`. -/
def keepsAlarmDecide : (s : State) → (evs : List Event) → Decidable (keepsAlarm s evs)
  | _, [] => isTrue trivial
  | s, e :: es =>
      have := keepsAlarmDecide (step s e) es
      inferInstanceAs (Decidable (e ≠ Event.reset ∧
        ¬ (e = Event.tick ∧ s.pauseFlag = 0 ∧ s.countMode = 0) ∧ keepsAlarm (step s e) es))

instance (s : State) (evs : List Event) : Decidable (keepsAlarm s evs) :=
  keepsAlarmDecide s evs

/-! ## Presses, latches and actions of the input lines -/

/-- The latch variable of a line (`incrementHoursFlag`, ..., `toggleFlag`). -/
def latch : Line → State → Nat
  | .incHours, s => s.incrementHoursFlag
  | .incMinutes, s => s.incrementMinutesFlag
  | .incSeconds, s => s.incrementSecondsFlag
  | .decSeconds, s => s.decrementSecondsFlag
  | .decMinutes, s => s.decrementMinutesFlag
  | .decHours, s => s.decrementHoursFlag
  | .toggle, s => s.toggleFlag

/-- Assignment to the latch variable of a line. -/
def setLatch : Line → Nat → State → State
  | .incHours, v, s => s.setIncrementHoursFlag v
  | .incMinutes, v, s => s.setIncrementMinutesFlag v
  | .incSeconds, v, s => s.setIncrementSecondsFlag v
  | .decSeconds, v, s => s.setDecrementSecondsFlag v
  | .decMinutes, v, s => s.setDecrementMinutesFlag v
  | .decHours, v, s => s.setDecrementHoursFlag v
  | .toggle, v, s => s.setToggleFlag v

/-- Lines 270-275: what the hour-increment block does after setting its latch. -/
def incrementHoursAction (s : State) : State :=
  let s := s.setHoursUNITS (incr s.hoursUNITS)
  if s.hoursUNITS = 10 then
    let s := s.setHoursUNITS 0
    s.setHoursTENS (incr s.hoursTENS)
  else s

/-- Lines 293-298: what the minute-increment block does after setting its latch. -/
def incrementMinutesAction (s : State) : State :=
  let s := s.setMinutesUNITS (incr s.minutesUNITS)
  if s.minutesUNITS = 10 then
    let s := s.setMinutesUNITS 0
    s.setMinutesTENS (incr s.minutesTENS)
  else s

/-- Lines 316-321: what the second-increment block does after setting its latch. -/
def incrementSecondsAction (s : State) : State :=
  let s := s.setSecondsUNITS (incr s.secondsUNITS)
  if s.secondsUNITS = 10 then
    let s := s.setSecondsUNITS 0
    s.setSecondsTENS (incr s.secondsTENS)
  else s

/-- Lines 339-368: what the second-decrement block does after setting its latch. -/
def decrementSecondsAction (s : State) : State :=
  if s.secondsUNITS > 0 then
    s.setSecondsUNITS (s.secondsUNITS - 1)
  else if s.secondsTENS > 0 then
    let s := s.setSecondsTENS (s.secondsTENS - 1)
    s.setSecondsUNITS 9
  else if s.minutesUNITS > 0 ∨ s.minutesTENS > 0 then
    let s :=
      if s.minutesUNITS > 0 then
        s.setMinutesUNITS (s.minutesUNITS - 1)
      else
        let s := s.setMinutesTENS (s.minutesTENS - 1)
        s.setMinutesUNITS 9
    let s := s.setSecondsTENS 5
    s.setSecondsUNITS 9
  else s

/-- Lines 386-416: what the minute-decrement block does after setting its latch. -/
def decrementMinutesAction (s : State) : State :=
  if s.minutesUNITS > 0 then
    s.setMinutesUNITS (s.minutesUNITS - 1)
  else if s.minutesTENS > 0 then
    let s := s.setMinutesTENS (s.minutesTENS - 1)
    s.setMinutesUNITS 9
  else if s.hoursUNITS > 0 ∨ s.hoursTENS > 0 then
    let s :=
      if s.hoursUNITS > 0 then
        s.setHoursUNITS (s.hoursUNITS - 1)
      else
        let s := s.setHoursTENS (s.hoursTENS - 1)
        s.setHoursUNITS 9
    let s := s.setMinutesTENS 5
    let s := s.setMinutesUNITS 9
    s.setSecondsUNITS 9
  else s

/-- Lines 434-445: what the hour-decrement block does after setting its latch. -/
def decrementHoursAction (s : State) : State :=
  if s.hoursUNITS > 0 then
    s.setHoursUNITS (s.hoursUNITS - 1)
  else if s.hoursTENS > 0 then
    let s := s.setHoursTENS (s.hoursTENS - 1)
    s.setHoursUNITS 9
  else s

/-- Line 463: what the toggle block does after setting its latch. -/
def toggleAction (s : State) : State :=
  s.setCountMode (Nat.xor s.countMode 1)

/-- The action of a line: what its block does on a press edge, the latch apart. -/
def action : Line → State → State
  | .incHours => incrementHoursAction
  | .incMinutes => incrementMinutesAction
  | .incSeconds => incrementSecondsAction
  | .decSeconds => decrementSecondsAction
  | .decMinutes => decrementMinutesAction
  | .decHours => decrementHoursAction
  | .toggle => toggleAction

/-- One sustained press of a line: a poll that reads the line low on both samples,
followed by a poll that reads it high. -/
def pressAndRelease (l : Line) (s : State) : State :=
  poll l false false (poll l true true s)

/-- The hours shown, as a number. -/
def hoursValue (s : State) : Nat := s.hoursTENS * 10 + s.hoursUNITS

/-- The minutes shown, as a number. -/
def minutesValue (s : State) : Nat := s.minutesTENS * 10 + s.minutesUNITS

/-- The seconds shown, as a number. -/
def secondsValue (s : State) : Nat := s.secondsTENS * 10 + s.secondsUNITS

/-- The poll sequence of one sustained press of line `l` held over `n` polls:
released, `n` times pressed (both samples low), released. -/
def sustainedPress (l : Line) (n : Nat) : List Event :=
  Event.poll l false false :: (List.replicate n (Event.poll l true true)
    ++ [Event.poll l false false])

/-! ## Shared lemmas -/

theorem ticks_add (a b : Nat) (s : State) : ticks (a + b) s = ticks b (ticks a s) := by
  induction a generalizing s with
  | zero => simp [ticks]
  | succ a ih => rw [Nat.add_right_comm]; exact ih (on_tick s)

theorem on_tick_down (s : State) (hr : s.pauseFlag = 0) (hm : s.countMode ≠ 0) :
    on_tick s = (retreat_one_second (s.setIsr 1)).setIsr 0 := by
  simp [on_tick, tickBlock, TIMER1_COMPA_vect, State.setIsr, hr, hm]

theorem on_tick_up (s : State) (hr : s.pauseFlag = 0) (hm : s.countMode = 0) :
    on_tick s = (advance_one_second (s.setIsr 1)).setIsr 0 := by
  simp [on_tick, tickBlock, TIMER1_COMPA_vect, State.setIsr, hr, hm]

theorem on_tick_paused (s : State) (hp : s.pauseFlag ≠ 0) :
    on_tick s = s.setIsr 0 := by
  simp [on_tick, tickBlock, TIMER1_COMPA_vect, State.setIsr, hp]

/-! ### Counting down -/

theorem retreat_spec (s : State) (hv : validTime s) (hz : totalSeconds s ≠ 0) :
    validTime (retreat_one_second s) ∧
      totalSeconds (retreat_one_second s) + 1 = totalSeconds s ∧
      (retreat_one_second s).countMode = s.countMode ∧
      (retreat_one_second s).pauseFlag = s.pauseFlag ∧
      (retreat_one_second s).ddrdPD0 = s.ddrdPD0 ∧
      (retreat_one_second s).portdPD0 = s.portdPD0 := by
  obtain ⟨su, st, mu, mt, hu, ht, pf, isr, f1, f2, f3, f4, f5, f6, cm, tf, d0, p0, p4, p5⟩ := s
  simp only [validTime, totalSeconds, retreat_one_second, State.setSecondsUNITS, State.setSecondsTENS, State.setMinutesUNITS, State.setMinutesTENS,
    State.setHoursUNITS, State.setHoursTENS, State.setDdrdPD0, State.setPortdPD0] at *
  split_ifs <;> dsimp only <;> refine ⟨?_, ?_, rfl, rfl, ?_, ?_⟩ <;> first | rfl | omega

theorem on_tick_down_spec (s : State) (hv : validTime s) (hz : totalSeconds s ≠ 0)
    (hr : s.pauseFlag = 0) (hm : s.countMode ≠ 0) :
    validTime (on_tick s) ∧ totalSeconds (on_tick s) + 1 = totalSeconds s ∧
      (on_tick s).countMode = s.countMode ∧ (on_tick s).pauseFlag = s.pauseFlag ∧
      (on_tick s).ddrdPD0 = s.ddrdPD0 ∧ (on_tick s).portdPD0 = s.portdPD0 := by
  rw [on_tick_down s hr hm]
  exact retreat_spec (s.setIsr 1) hv hz

theorem digits_zero_of_total (s : State) (h : totalSeconds s = 0) :
    digits s = (0, 0, 0, 0, 0, 0) := by
  simp only [totalSeconds] at h
  simp only [digits, Prod.mk.injEq]
  omega

theorem total_zero_of_digits (s : State) (h : digits s = (0, 0, 0, 0, 0, 0)) :
    totalSeconds s = 0 := by
  simp only [digits, Prod.mk.injEq] at h
  simp only [totalSeconds]
  omega

theorem on_tick_down_zero (s : State) (hz : digits s = (0, 0, 0, 0, 0, 0))
    (hr : s.pauseFlag = 0) (hm : s.countMode ≠ 0) :
    digits (on_tick s) = (0, 0, 0, 0, 0, 0) ∧ alarm (on_tick s) = true ∧
      (on_tick s).countMode = s.countMode ∧ (on_tick s).pauseFlag = s.pauseFlag := by
  rw [on_tick_down s hr hm]
  simp only [digits, Prod.mk.injEq] at hz
  obtain ⟨h1, h2, h3, h4, h5, h6⟩ := hz
  simp [retreat_one_second, digits, alarm, State.setIsr, State.setDdrdPD0, State.setPortdPD0,
    h1, h2, h3, h4, h5, h6]

theorem ticks_down (n : Nat) (s : State) (hv : validTime s) (hn : n ≤ totalSeconds s)
    (hr : s.pauseFlag = 0) (hm : s.countMode ≠ 0) :
    validTime (ticks n s) ∧ totalSeconds (ticks n s) + n = totalSeconds s ∧
      (ticks n s).countMode = s.countMode ∧ (ticks n s).pauseFlag = s.pauseFlag := by
  induction n generalizing s with
  | zero => exact ⟨hv, rfl, rfl, rfl⟩
  | succ n ih =>
    obtain ⟨h1, h2, h3, h4, -, -⟩ := on_tick_down_spec s hv (by omega) hr hm
    obtain ⟨k1, k2, k3, k4⟩ := ih (on_tick s) h1 (by omega) (h4.trans hr) (by rw [h3]; exact hm)
    exact ⟨k1, by simp only [ticks]; omega, k3.trans h3, k4.trans h4⟩

theorem ticks_down_zero (k : Nat) (s : State) (hz : digits s = (0, 0, 0, 0, 0, 0))
    (hr : s.pauseFlag = 0) (hm : s.countMode ≠ 0) (hk : 1 ≤ k) :
    digits (ticks k s) = (0, 0, 0, 0, 0, 0) ∧ alarm (ticks k s) = true := by
  induction k generalizing s with
  | zero => omega
  | succ k ih =>
    obtain ⟨h1, h2, h3, h4⟩ := on_tick_down_zero s hz hr hm
    rcases Nat.eq_zero_or_pos k with rfl | hk0
    · exact ⟨h1, h2⟩
    · exact ih (on_tick s) h1 (h4.trans hr) (by rw [h3]; exact hm) hk0

/-! ### Counting up -/

theorem advance_low (s : State) (hv : validMinSec s) (hlt : secondsOfHour s < 3599) :
    validMinSec (advance_one_second s) ∧
      secondsOfHour (advance_one_second s) = secondsOfHour s + 1 ∧
      hourCells (advance_one_second s) = hourCells s ∧
      (advance_one_second s).pauseFlag = s.pauseFlag ∧
      (advance_one_second s).countMode = s.countMode := by
  obtain ⟨su, st, mu, mt, hu, ht, pf, isr, f1, f2, f3, f4, f5, f6, cm, tf, d0, p0, p4, p5⟩ := s
  simp only [validMinSec, secondsOfHour, hourCells, advance_one_second, incr, State.setSecondsUNITS, State.setSecondsTENS, State.setMinutesUNITS, State.setMinutesTENS,
    State.setHoursUNITS, State.setHoursTENS, State.setDdrdPD0, State.setPortdPD0] at *
  split_ifs <;> first | omega | (dsimp only; refine ⟨?_, ?_, rfl, rfl, rfl⟩ <;> omega)

theorem advance_carry (s : State) (hv : validMinSec s) (h : secondsOfHour s = 3599) :
    secondsOfHour (advance_one_second s) = 0 ∧
      hourCells (advance_one_second s) = nextHour (hourCells s) ∧
      (advance_one_second s).pauseFlag = s.pauseFlag ∧
      (advance_one_second s).countMode = s.countMode := by
  obtain ⟨su, st, mu, mt, hu, ht, pf, isr, f1, f2, f3, f4, f5, f6, cm, tf, d0, p0, p4, p5⟩ := s
  simp only [validMinSec, secondsOfHour] at hv h
  obtain ⟨rfl, rfl, rfl, rfl⟩ : su = 9 ∧ st = 5 ∧ mu = 9 ∧ mt = 5 := by omega
  simp only [secondsOfHour, hourCells, nextHour, atTime, initialState, advance_one_second,
    hoursCarry, hoursElseIf, incr, State.setSecondsUNITS, State.setSecondsTENS, State.setMinutesUNITS, State.setMinutesTENS,
    State.setHoursUNITS, State.setHoursTENS, State.setDdrdPD0, State.setPortdPD0]
  split_ifs <;> simp_all

theorem on_tick_up_low (s : State) (hr : s.pauseFlag = 0) (hm : s.countMode = 0)
    (hv : validMinSec s) (hlt : secondsOfHour s < 3599) :
    validMinSec (on_tick s) ∧ secondsOfHour (on_tick s) = secondsOfHour s + 1 ∧
      hourCells (on_tick s) = hourCells s ∧
      (on_tick s).pauseFlag = s.pauseFlag ∧ (on_tick s).countMode = s.countMode := by
  rw [on_tick_up s hr hm]
  exact advance_low (s.setIsr 1) hv hlt

theorem on_tick_up_carry (s : State) (hr : s.pauseFlag = 0) (hm : s.countMode = 0)
    (hv : validMinSec s) (h : secondsOfHour s = 3599) :
    secondsOfHour (on_tick s) = 0 ∧ hourCells (on_tick s) = nextHour (hourCells s) ∧
      (on_tick s).pauseFlag = s.pauseFlag ∧ (on_tick s).countMode = s.countMode := by
  rw [on_tick_up s hr hm]
  exact advance_carry (s.setIsr 1) hv h

theorem ticks_up_low (n : Nat) (s : State) (hr : s.pauseFlag = 0) (hm : s.countMode = 0)
    (hv : validMinSec s) (hn : secondsOfHour s + n ≤ 3599) :
    validMinSec (ticks n s) ∧ secondsOfHour (ticks n s) = secondsOfHour s + n ∧
      hourCells (ticks n s) = hourCells s ∧
      (ticks n s).pauseFlag = 0 ∧ (ticks n s).countMode = 0 := by
  induction n generalizing s with
  | zero => exact ⟨hv, rfl, rfl, hr, hm⟩
  | succ n ih =>
    obtain ⟨h1, h2, h3, h4, h5⟩ := on_tick_up_low s hr hm hv (by omega)
    obtain ⟨k1, k2, k3, k4, k5⟩ := ih (on_tick s) (h4.trans hr) (h5.trans hm) h1 (by omega)
    exact ⟨k1, by simp only [ticks]; omega, k3.trans h3, k4, k5⟩

theorem validMinSec_of_zero (s : State) (h : secondsOfHour s = 0) : validMinSec s := by
  simp only [secondsOfHour] at h
  simp only [validMinSec]
  omega

theorem ticks_3600 (h : Nat × Nat) (s : State) (hs : onTheHour h s) :
    onTheHour (nextHour h) (ticks 3600 s) := by
  obtain ⟨hr, hm, hh, h0⟩ := hs
  obtain ⟨k1, k2, k3, k4, k5⟩ :=
    ticks_up_low 3599 s hr hm (validMinSec_of_zero s h0) (by omega)
  have e : ticks 3600 s = on_tick (ticks 3599 s) := ticks_add 3599 1 s
  obtain ⟨c1, c2, c3, c4⟩ := on_tick_up_carry (ticks 3599 s) k4 k5 k1 (by omega)
  rw [e]
  refine ⟨c3.trans k4, c4.trans k5, ?_, c1⟩
  rw [c2, k3, hh]

theorem ticks_hours (k : Nat) (h : Nat × Nat) (s : State) (hs : onTheHour h s) :
    onTheHour (nextHour^[k] h) (ticks (3600 * k) s) := by
  induction k generalizing h s with
  | zero => exact hs
  | succ k ih =>
    have e : 3600 * (k + 1) = 3600 + 3600 * k := by ring
    rw [e, ticks_add, Function.iterate_succ_apply]
    exact ih _ _ (ticks_3600 h s hs)

theorem digits_of_onTheHour (h : Nat × Nat) (s : State) (hs : onTheHour h s) :
    digits s = (h.1, h.2, 0, 0, 0, 0) := by
  obtain ⟨-, -, hh, h0⟩ := hs
  simp only [hourCells, Prod.ext_iff] at hh
  simp only [secondsOfHour] at h0
  simp only [digits, Prod.mk.injEq]
  omega

theorem onTheHour_initialState : onTheHour (0, 0) initialState := by
  simp [onTheHour, initialState, hourCells, secondsOfHour]

/-! ### The alarm line -/

theorem retreat_alarm (s : State) (h : alarm s = true) :
    alarm (retreat_one_second s) = true := by
  obtain ⟨su, st, mu, mt, hu, ht, pf, isr, f1, f2, f3, f4, f5, f6, cm, tf, d0, p0, p4, p5⟩ := s
  simp only [alarm, retreat_one_second, State.setSecondsUNITS, State.setSecondsTENS, State.setMinutesUNITS, State.setMinutesTENS,
    State.setHoursUNITS, State.setHoursTENS, State.setDdrdPD0, State.setPortdPD0] at *
  split_ifs <;> simp_all

theorem poll_alarm (l : Line) (p1 p2 : Bool) (s : State) :
    alarm (poll l p1 p2 s) = alarm s := by
  cases l <;>
    simp only [poll, pollIncrementHours, pollIncrementMinutes, pollIncrementSeconds,
      pollDecrementSeconds, pollDecrementMinutes, pollDecrementHours, pollToggle, alarm,
      State.setSecondsUNITS, State.setSecondsTENS, State.setMinutesUNITS, State.setMinutesTENS,
      State.setHoursUNITS, State.setHoursTENS, State.setDdrdPD0, State.setPortdPD0,
      State.setIncrementHoursFlag, State.setIncrementMinutesFlag, State.setIncrementSecondsFlag,
      State.setDecrementHoursFlag, State.setDecrementMinutesFlag, State.setDecrementSecondsFlag,
      State.setToggleFlag, State.setCountMode] <;>
    split_ifs <;> rfl

theorem step_alarm (s : State) (e : Event) (h : alarm s = true) (hr : e ≠ Event.reset)
    (hu : ¬ (e = Event.tick ∧ s.pauseFlag = 0 ∧ s.countMode = 0)) :
    alarm (step s e) = true := by
  cases e with
  | tick =>
    simp only [step]
    by_cases hp : s.pauseFlag = 0
    · have hm : s.countMode ≠ 0 := fun hm => hu ⟨rfl, hp, hm⟩
      rw [on_tick_down s hp hm]
      exact retreat_alarm (s.setIsr 1) h
    · rw [on_tick_paused s hp]
      exact h
  | reset => exact absurd rfl hr
  | pause => exact h
  | resume => exact h
  | poll l p1 p2 =>
    simp only [step]
    rw [poll_alarm]
    exact h

theorem ticks_paused (n : Nat) (s : State) (hp : s.pauseFlag ≠ 0) :
    digits (ticks n s) = digits s ∧ (ticks n s).pauseFlag = s.pauseFlag ∧
      (ticks n s).countMode = s.countMode ∧ alarm (ticks n s) = alarm s := by
  induction n generalizing s with
  | zero => exact ⟨rfl, rfl, rfl, rfl⟩
  | succ n ih =>
    have e : on_tick s = s.setIsr 0 := on_tick_paused s hp
    obtain ⟨k1, k2, k3, k4⟩ := ih (on_tick s) (by rw [e]; exact hp)
    simp only [ticks]
    rw [k1, k2, k3, k4, e]
    exact ⟨rfl, rfl, rfl, rfl⟩

/-! ## Claims -/

/-- C1 (defect in the hour carry): at the valid time 20:59:59 (75599 s), running in
count-up mode, one tick shows 22:00:00 (79200 s) instead of 21:00:00 (75600 s):
with `hoursTENS == 2` the condition on line 156 increments `hoursUNITS`, and the
`else if` on line 161 increments it a second time. -/
theorem C1_tick_at_20_59_59 :
    validTime (atTime 2 0 5 9 5 9) ∧
      (atTime 2 0 5 9 5 9).pauseFlag = 0 ∧ (atTime 2 0 5 9 5 9).countMode = 0 ∧
      totalSeconds (atTime 2 0 5 9 5 9) = 75599 ∧
      digits (on_tick (atTime 2 0 5 9 5 9)) = (2, 2, 0, 0, 0, 0) ∧
      totalSeconds (on_tick (atTime 2 0 5 9 5 9)) = 79200 ∧
      totalSeconds (on_tick (atTime 2 0 5 9 5 9)) ≠ (75599 + 1) % 86400 :=
  ⟨by decide, rfl, rfl, rfl, rfl, rfl, by decide⟩

/-- C2 (defect in the hour carry): from 00:00:00, running in count-up mode, 86400
ticks with no other event leave the display at 28:00:00, not at 00:00:00. -/
theorem C2_ticks_86400 :
    digits (ticks 86400 initialState) = (2, 8, 0, 0, 0, 0) ∧
      digits (ticks 86400 initialState) ≠ digits initialState := by
  have h := digits_of_onTheHour _ _ (ticks_hours 24 (0, 0) initialState onTheHour_initialState)
  have e : nextHour^[24] (0, 0) = (2, 8) := by rfl
  rw [e] at h
  have h' : digits (ticks 86400 initialState) = (2, 8, 0, 0, 0, 0) := h
  refine ⟨h', ?_⟩
  rw [h']
  decide

/-- C3 (defect in the hour carry): at the valid time 20:59:59, which is not
23:59:59, a count-up tick followed by a count-down tick shows 21:59:59, not
20:59:59 again; the same holds when the two ticks are processed by the main loop
with a mode toggle in between. -/
theorem C3_advance_retreat_at_20_59_59 :
    validTime (atTime 2 0 5 9 5 9) ∧
      digits (atTime 2 0 5 9 5 9) ≠ (2, 3, 5, 9, 5, 9) ∧
      digits (retreat_one_second (advance_one_second (atTime 2 0 5 9 5 9)))
        = (2, 1, 5, 9, 5, 9) ∧
      digits (run (atTime 2 0 5 9 5 9)
          [Event.tick, Event.poll Line.toggle true true, Event.tick])
        = (2, 1, 5, 9, 5, 9) ∧
      digits (retreat_one_second (advance_one_second (atTime 2 0 5 9 5 9)))
        ≠ digits (atTime 2 0 5 9 5 9) :=
  ⟨by decide, by decide, rfl, rfl, by decide⟩

/-- C4 (defect in the hour carry): the valid time 22:59:59, running in count-up
mode, is taken by one tick to 24:00:00, which is not a valid time; and 24:00:00
is reached from the initial state by 79200 ticks alone. -/
theorem C4_tick_leaves_valid_range :
    validTime (atTime 2 2 5 9 5 9) ∧
      digits (on_tick (atTime 2 2 5 9 5 9)) = (2, 4, 0, 0, 0, 0) ∧
      ¬ validTime (on_tick (atTime 2 2 5 9 5 9)) ∧
      digits (ticks 79200 initialState) = (2, 4, 0, 0, 0, 0) ∧
      ¬ validTime (ticks 79200 initialState) := by
  have h := digits_of_onTheHour _ _ (ticks_hours 22 (0, 0) initialState onTheHour_initialState)
  have e : nextHour^[22] (0, 0) = (2, 4) := by rfl
  rw [e] at h
  have h' : digits (ticks 79200 initialState) = (2, 4, 0, 0, 0, 0) := h
  refine ⟨by decide, rfl, by decide, h', ?_⟩
  simp only [digits, Prod.mk.injEq] at h'
  simp only [validTime]
  omega

/-- C5: for every valid time other than 00:00:00, one tick processed while running
(`pauseFlag = 0`) in count-down mode (`countMode ≠ 0`) yields a valid time whose
total number of seconds is one less, and leaves the mode flag, the run flag and
the alarm output unchanged. -/
theorem C5_retreat_one_second_earlier (s : State) (hv : validTime s)
    (hz : digits s ≠ (0, 0, 0, 0, 0, 0)) (hr : s.pauseFlag = 0) (hm : s.countMode ≠ 0) :
    validTime (on_tick s) ∧ totalSeconds (on_tick s) + 1 = totalSeconds s ∧
      (on_tick s).countMode = s.countMode ∧ (on_tick s).pauseFlag = s.pauseFlag ∧
      alarm (on_tick s) = alarm s := by
  have hz' : totalSeconds s ≠ 0 := fun h => hz (digits_zero_of_total s h)
  obtain ⟨h1, h2, h3, h4, h5, h6⟩ := on_tick_down_spec s hv hz' hr hm
  refine ⟨h1, h2, h3, h4, ?_⟩
  simp only [alarm, h5, h6]

/-- Witness for C5 at 01:00:00, which a count-down tick takes to 00:59:59. -/
theorem C5_retreat_one_second_earlier_witness :
    digits (on_tick (atTimeDown 0 1 0 0 0 0)) = (0, 0, 5, 9, 5, 9) ∧
      (validTime (on_tick (atTimeDown 0 1 0 0 0 0)) ∧
        totalSeconds (on_tick (atTimeDown 0 1 0 0 0 0)) + 1
          = totalSeconds (atTimeDown 0 1 0 0 0 0) ∧
        (on_tick (atTimeDown 0 1 0 0 0 0)).countMode = (atTimeDown 0 1 0 0 0 0).countMode ∧
        (on_tick (atTimeDown 0 1 0 0 0 0)).pauseFlag = (atTimeDown 0 1 0 0 0 0).pauseFlag ∧
        alarm (on_tick (atTimeDown 0 1 0 0 0 0)) = alarm (atTimeDown 0 1 0 0 0 0)) :=
  ⟨rfl, C5_retreat_one_second_earlier (atTimeDown 0 1 0 0 0 0) (by decide) (by decide) rfl
    (by decide)⟩

/-- C6: for every valid time of `n` total seconds, running in count-down mode with
no other event, after `n` ticks the display is 00:00:00, and after `n + k` ticks,
for every `k ≥ 1`, the display is still 00:00:00 and the alarm output is
asserted; when `n = 0` a single tick changes no digit and asserts the alarm. -/
theorem C6_countdown_reaches_zero_and_clamps (s : State) (hv : validTime s)
    (hr : s.pauseFlag = 0) (hm : s.countMode ≠ 0) :
    digits (ticks (totalSeconds s) s) = (0, 0, 0, 0, 0, 0) ∧
      (∀ k, 1 ≤ k →
        digits (ticks (totalSeconds s + k) s) = (0, 0, 0, 0, 0, 0) ∧
          alarm (ticks (totalSeconds s + k) s) = true) ∧
      (totalSeconds s = 0 → digits (on_tick s) = digits s ∧ alarm (on_tick s) = true) := by
  obtain ⟨h1, h2, h3, h4⟩ := ticks_down (totalSeconds s) s hv (le_refl _) hr hm
  have hz : digits (ticks (totalSeconds s) s) = (0, 0, 0, 0, 0, 0) :=
    digits_zero_of_total _ (by omega)
  refine ⟨hz, ?_, ?_⟩
  · intro k hk
    rw [ticks_add]
    exact ticks_down_zero k _ hz (h4.trans hr) (by rw [h3]; exact hm) hk
  · intro h0
    have hd := digits_zero_of_total s h0
    obtain ⟨k1, k2, -, -⟩ := on_tick_down_zero s hd hr hm
    exact ⟨k1.trans hd.symm, k2⟩

/-- Witness for C6: from 00:00:05 in count-down mode, 5 ticks give 00:00:00 and
6 ticks give 00:00:00 with the alarm asserted. -/
theorem C6_countdown_reaches_zero_and_clamps_witness :
    digits (ticks 5 (atTimeDown 0 0 0 0 0 5)) = (0, 0, 0, 0, 0, 0) ∧
      digits (ticks 6 (atTimeDown 0 0 0 0 0 5)) = (0, 0, 0, 0, 0, 0) ∧
      alarm (ticks 6 (atTimeDown 0 0 0 0 0 5)) = true :=
  ⟨(C6_countdown_reaches_zero_and_clamps (atTimeDown 0 0 0 0 0 5)
      (by decide) rfl (by decide)).1,
    (C6_countdown_reaches_zero_and_clamps (atTimeDown 0 0 0 0 0 5)
      (by decide) rfl (by decide)).2.1 1 (le_refl 1)⟩

/-- C7 (counterexample): in the state reached by a count-down tick at 00:00:00 the
alarm is asserted; a mode toggle followed by a tick, a sequence without reset,
leaves it deasserted. -/
theorem C7_toggle_then_tick_clears_alarm :
    alarm (on_tick (atTimeDown 0 0 0 0 0 0)) = true ∧
      Event.reset ∉ [Event.poll Line.toggle true true, Event.tick] ∧
      alarm (run (on_tick (atTimeDown 0 0 0 0 0 0))
        [Event.poll Line.toggle true true, Event.tick]) = false :=
  ⟨rfl, by decide, rfl⟩

/-- C7 (amended): for every state in which the alarm output is asserted, it remains
asserted after any finite sequence of events (ticks, pause, resume, polls of the
seven input lines) that contains no reset and during which no tick is processed
while running in count-up mode; a tick processed while running in count-up mode
drives the alarm output low. -/
theorem C7_alarm_kept_without_count_up_tick :
    (∀ (s : State) (evs : List Event), alarm s = true → keepsAlarm s evs →
        alarm (run s evs) = true) ∧
      (∀ s : State, s.pauseFlag = 0 → s.countMode = 0 → alarm (on_tick s) = false) := by
  constructor
  · intro s evs
    induction evs generalizing s with
    | nil => intro h _; exact h
    | cons e es ih =>
      intro h hk
      obtain ⟨hr, hu, hrest⟩ := hk
      exact ih (step s e) (step_alarm s e h hr hu) hrest
  · intro s hr hm
    rw [on_tick_up s hr hm]
    simp only [alarm, advance_one_second, hoursCarry, hoursElseIf, State.setIsr, State.setSecondsUNITS, State.setSecondsTENS, State.setMinutesUNITS, State.setMinutesTENS,
    State.setHoursUNITS, State.setHoursTENS, State.setDdrdPD0, State.setPortdPD0]
    split_ifs <;> simp

/-- Witness for C7: with the alarm asserted at 00:00:00 in count-down mode, a tick,
a pause, a mode toggle, a tick while paused and a second-increment press keep it
asserted. -/
theorem C7_alarm_kept_without_count_up_tick_witness :
    alarm (run (on_tick (atTimeDown 0 0 0 0 0 0))
      [Event.tick, Event.pause, Event.poll Line.toggle true true, Event.tick,
        Event.poll Line.incSeconds true true]) = true :=
  C7_alarm_kept_without_count_up_tick.1 (on_tick (atTimeDown 0 0 0 0 0 0))
    [Event.tick, Event.pause, Event.poll Line.toggle true true, Event.tick,
      Event.poll Line.incSeconds true true] rfl (by decide)

/-- C8 (counterexample): after 6 count-down ticks from 00:00:05 the alarm is
asserted, and it is still asserted after the reset handler has run. -/
theorem C8_reset_leaves_alarm_asserted :
    alarm (ticks 6 (atTimeDown 0 0 0 0 0 5)) = true ∧
      alarm (INT0_vect (ticks 6 (atTimeDown 0 0 0 0 0 5))) = true :=
  ⟨rfl, rfl⟩

/-- C8 (amended): for every state, the reset handler leaves the alarm output as it
was, asserted or deasserted: it writes neither `PORTD` nor `DDRD`. -/
theorem C8_reset_keeps_alarm_line (s : State) :
    alarm (INT0_vect s) = alarm s ∧ (INT0_vect s).ddrdPD0 = s.ddrdPD0 ∧
      (INT0_vect s).portdPD0 = s.portdPD0 :=
  ⟨rfl, rfl, rfl⟩

/-- C9: for every state, the reset handler sets all six digit cells to 0, leaves the
mode flag, the pause flag and the seven button latches unchanged, and is
idempotent. -/
theorem C9_reset_frame (s : State) :
    digits (INT0_vect s) = (0, 0, 0, 0, 0, 0) ∧
      (INT0_vect s).countMode = s.countMode ∧
      (INT0_vect s).pauseFlag = s.pauseFlag ∧
      (INT0_vect s).incrementHoursFlag = s.incrementHoursFlag ∧
      (INT0_vect s).incrementMinutesFlag = s.incrementMinutesFlag ∧
      (INT0_vect s).incrementSecondsFlag = s.incrementSecondsFlag ∧
      (INT0_vect s).decrementHoursFlag = s.decrementHoursFlag ∧
      (INT0_vect s).decrementMinutesFlag = s.decrementMinutesFlag ∧
      (INT0_vect s).decrementSecondsFlag = s.decrementSecondsFlag ∧
      (INT0_vect s).toggleFlag = s.toggleFlag ∧
      INT0_vect (INT0_vect s) = INT0_vect s :=
  ⟨rfl, rfl, rfl, rfl, rfl, rfl, rfl, rfl, rfl, rfl, rfl⟩

/-- C10: for every paused state (`pauseFlag ≠ 0`, in particular `pauseFlag = 1`)
and either mode, processing a tick changes only the pending-tick flag `isr`, so
the six digit cells, the mode flag, the run flag and the alarm output are
unchanged; and after pause, any number of ticks, then resume, the six digit
cells are those at the moment of pause. -/
theorem C10_paused_tick_is_noop :
    (∀ s : State, s.pauseFlag ≠ 0 →
        on_tick s = s.setIsr 0 ∧ digits (on_tick s) = digits s ∧
          (on_tick s).countMode = s.countMode ∧ (on_tick s).pauseFlag = s.pauseFlag ∧
          alarm (on_tick s) = alarm s) ∧
      (∀ (s : State) (n : Nat), digits (INT2_vect (ticks n (INT1_vect s))) = digits s) := by
  constructor
  · intro s hp
    rw [on_tick_paused s hp]
    exact ⟨rfl, rfl, rfl, rfl, rfl⟩
  · intro s n
    have h := (ticks_paused n (INT1_vect s) (by simp [INT1_vect, State.setPauseFlag])).1
    exact h

/-- Witness for C10: paused at 01:23:45 in count-down mode, a tick changes no digit,
and 3 ticks between pause and resume leave 01:23:45. -/
theorem C10_paused_tick_is_noop_witness :
    digits (on_tick (INT1_vect (atTimeDown 0 1 2 3 4 5))) = (0, 1, 2, 3, 4, 5) ∧
      digits (INT2_vect (ticks 3 (INT1_vect (atTimeDown 0 1 2 3 4 5)))) = (0, 1, 2, 3, 4, 5) :=
  ⟨(C10_paused_tick_is_noop.1 (INT1_vect (atTimeDown 0 1 2 3 4 5)) (by decide)).2.1,
    C10_paused_tick_is_noop.2 (atTimeDown 0 1 2 3 4 5) 3⟩

/-! ## Lemmas on the input lines -/

theorem poll_released (l : Line) (p2 : Bool) (s : State) :
    poll l false p2 s = setLatch l 0 s := by
  cases l <;> rfl

theorem poll_glitch (l : Line) (s : State) : poll l true false s = s := by
  cases l <;> rfl

theorem poll_edge (l : Line) (s : State) (h : latch l s = 0) :
    poll l true true s = action l (setLatch l 1 s) := by
  cases l <;> simp only [latch] at h <;>
    simp [poll, action, setLatch, pollIncrementHours, pollIncrementMinutes,
      pollIncrementSeconds, pollDecrementSeconds, pollDecrementMinutes, pollDecrementHours,
      pollToggle, incrementHoursAction, incrementMinutesAction, incrementSecondsAction,
      decrementSecondsAction, decrementMinutesAction, decrementHoursAction, toggleAction, h]

theorem poll_held (l : Line) (s : State) (h : latch l s ≠ 0) :
    poll l true true s = s := by
  cases l <;> simp only [latch] at h <;>
    simp [poll, pollIncrementHours, pollIncrementMinutes,
      pollIncrementSeconds, pollDecrementSeconds, pollDecrementMinutes, pollDecrementHours,
      pollToggle, h]

theorem action_setLatch (l : Line) (v : Nat) (s : State) :
    action l (setLatch l v s) = setLatch l v (action l s) := by
  cases l <;>
    simp only [action, setLatch, incrementHoursAction, incrementMinutesAction,
      incrementSecondsAction, decrementSecondsAction, decrementMinutesAction,
      decrementHoursAction, toggleAction,
      State.setSecondsUNITS, State.setSecondsTENS, State.setMinutesUNITS, State.setMinutesTENS,
      State.setHoursUNITS, State.setHoursTENS, State.setCountMode,
      State.setIncrementHoursFlag, State.setIncrementMinutesFlag, State.setIncrementSecondsFlag,
      State.setDecrementHoursFlag, State.setDecrementMinutesFlag, State.setDecrementSecondsFlag,
      State.setToggleFlag] <;>
    split_ifs <;> rfl

theorem latch_action (l : Line) (s : State) : latch l (action l s) = latch l s := by
  cases l <;>
    simp only [action, latch, incrementHoursAction, incrementMinutesAction,
      incrementSecondsAction, decrementSecondsAction, decrementMinutesAction,
      decrementHoursAction, toggleAction,
      State.setSecondsUNITS, State.setSecondsTENS, State.setMinutesUNITS, State.setMinutesTENS,
      State.setHoursUNITS, State.setHoursTENS, State.setCountMode] <;>
    split_ifs <;> rfl

theorem latch_setLatch (l : Line) (v : Nat) (s : State) : latch l (setLatch l v s) = v := by
  cases l <;> rfl

theorem setLatch_setLatch (l : Line) (v w : Nat) (s : State) :
    setLatch l v (setLatch l w s) = setLatch l v s := by
  cases l <;> rfl

theorem setLatch_of_latch (l : Line) (v : Nat) (s : State) (h : latch l s = v) :
    setLatch l v s = s := by
  subst h
  cases l <;> rfl

theorem pressAndRelease_eq (l : Line) (s : State) (h : latch l s = 0) :
    pressAndRelease l s = action l s := by
  unfold pressAndRelease
  rw [poll_released, poll_edge l s h, action_setLatch, setLatch_setLatch]
  exact setLatch_of_latch l 0 _ ((latch_action l s).trans h)

theorem run_append (s : State) (xs ys : List Event) :
    run s (xs ++ ys) = run (run s xs) ys := by
  simp [run, List.foldl_append]

theorem run_held (l : Line) (k : Nat) (s : State) (h : latch l s ≠ 0) :
    run s (List.replicate k (Event.poll l true true)) = s := by
  induction k with
  | zero => rfl
  | succ k ih =>
    simp only [List.replicate_succ, run, List.foldl_cons, step]
    rw [poll_held l s h]
    exact ih

theorem latch_poll_edge (l : Line) (s : State) (h : latch l s = 0) :
    latch l (poll l true true s) = 1 := by
  rw [poll_edge l s h, latch_action, latch_setLatch]

theorem run_sustainedPress (l : Line) (n : Nat) (s : State) (h : latch l s = 0) :
    run s (sustainedPress l (n + 1)) = action l s := by
  have h1 : latch l (poll l true true s) ≠ 0 := by
    rw [latch_poll_edge l s h]; decide
  have e0 : poll l false false s = s := by
    rw [poll_released]; exact setLatch_of_latch l 0 s h
  have e : run s (sustainedPress l (n + 1))
      = run (poll l true true (poll l false false s))
          (List.replicate n (Event.poll l true true) ++ [Event.poll l false false]) := rfl
  rw [e, e0, run_append, run_held l n _ h1]
  exact pressAndRelease_eq l s h

/-! ## Claims on the input lines -/

/-- C14: for each of the seven input lines, from a state whose latch is idle and for
every `n ≥ 1`, in the poll sequence released, `n` times pressed (both samples low),
released: the first released poll changes nothing, the first pressed poll sets the
latch and applies the action of the line, each further pressed poll changes nothing,
and the whole sequence leaves exactly the state the action gives applied once,
with the latch idle again, so that a later press fires again. -/
theorem C14_one_edge_per_sustained_press (l : Line) (s : State) (n : Nat)
    (hl : latch l s = 0) (hn : 1 ≤ n) :
    poll l false false s = s ∧
      poll l true true s = action l (setLatch l 1 s) ∧
      latch l (poll l true true s) = 1 ∧
      (∀ k, run (poll l true true s) (List.replicate k (Event.poll l true true))
        = poll l true true s) ∧
      run s (sustainedPress l n) = action l s ∧
      latch l (run s (sustainedPress l n)) = 0 ∧
      poll l true true (run s (sustainedPress l n))
        = action l (setLatch l 1 (action l s)) := by
  obtain ⟨m, rfl⟩ : ∃ m, n = m + 1 := ⟨n - 1, by omega⟩
  have h1 := latch_poll_edge l s hl
  have hrun := run_sustainedPress l m s hl
  have hlatch : latch l (action l s) = 0 := (latch_action l s).trans hl
  refine ⟨?_, poll_edge l s hl, h1, ?_, hrun, ?_, ?_⟩
  · rw [poll_released]; exact setLatch_of_latch l 0 s hl
  · intro k
    exact run_held l k _ (by rw [h1]; decide)
  · rw [hrun]; exact hlatch
  · rw [hrun]; exact poll_edge l _ hlatch

/-- Witness for C14: on the hour-increment line, released, pressed, pressed, pressed,
released from 00:00:00 gives 01:00:00, one increment. -/
theorem C14_one_edge_per_sustained_press_witness :
    digits (run initialState (sustainedPress Line.incHours 3)) = (0, 1, 0, 0, 0, 0) ∧
      run initialState (sustainedPress Line.incHours 3) = action Line.incHours initialState :=
  ⟨rfl, (C14_one_edge_per_sustained_press Line.incHours initialState 3 rfl
    (by decide)).2.2.2.2.1⟩

/-- C20: for each of the seven input lines and every state, a poll whose first sample
reads pressed and whose second sample, after the settle delay, reads released leaves
the whole state unchanged: no action, the latch, the six digit cells and the mode
flag as before. -/
theorem C20_glitch_changes_nothing (l : Line) (s : State) :
    poll l true false s = s ∧ latch l (poll l true false s) = latch l s ∧
      digits (poll l true false s) = digits s ∧
      (poll l true false s).countMode = s.countMode := by
  rw [poll_glitch]
  exact ⟨rfl, rfl, rfl, rfl⟩

/-! ## Manual adjustments -/

theorem incrementHoursAction_spec (s : State) (hu : s.hoursUNITS ≤ 9) (ht : s.hoursTENS ≤ 254) :
    hoursValue (incrementHoursAction s) = hoursValue s + 1 ∧
      (incrementHoursAction s).hoursUNITS ≤ 9 ∧
      (incrementHoursAction s).minutesTENS = s.minutesTENS ∧
      (incrementHoursAction s).minutesUNITS = s.minutesUNITS ∧
      (incrementHoursAction s).secondsTENS = s.secondsTENS ∧
      (incrementHoursAction s).secondsUNITS = s.secondsUNITS ∧
      (incrementHoursAction s).incrementHoursFlag = s.incrementHoursFlag := by
  obtain ⟨su, st, mu, mt, hu', ht', pf, isr, f1, f2, f3, f4, f5, f6, cm, tf, d0, p0, p4, p5⟩ := s
  simp only [hoursValue, incrementHoursAction, incr, State.setHoursUNITS, State.setHoursTENS] at *
  split_ifs <;> dsimp only <;> refine ⟨?_, ?_, rfl, rfl, rfl, rfl, rfl⟩ <;> omega

theorem iterate_incHours (n : Nat) (s : State) (hl : s.incrementHoursFlag = 0)
    (hu : s.hoursUNITS ≤ 9) (hn : hoursValue s + n ≤ 99) :
    hoursValue ((pressAndRelease Line.incHours)^[n] s) = hoursValue s + n ∧
      ((pressAndRelease Line.incHours)^[n] s).hoursUNITS ≤ 9 ∧
      ((pressAndRelease Line.incHours)^[n] s).minutesTENS = s.minutesTENS ∧
      ((pressAndRelease Line.incHours)^[n] s).minutesUNITS = s.minutesUNITS ∧
      ((pressAndRelease Line.incHours)^[n] s).secondsTENS = s.secondsTENS ∧
      ((pressAndRelease Line.incHours)^[n] s).secondsUNITS = s.secondsUNITS := by
  induction n generalizing s with
  | zero => exact ⟨rfl, hu, rfl, rfl, rfl, rfl⟩
  | succ n ih =>
    have ht : s.hoursTENS ≤ 254 := by simp only [hoursValue] at hn; omega
    have e : pressAndRelease Line.incHours s = incrementHoursAction s :=
      pressAndRelease_eq Line.incHours s hl
    obtain ⟨a1, a2, a3, a4, a5, a6, a7⟩ := incrementHoursAction_spec s hu ht
    rw [Function.iterate_succ_apply, e]
    obtain ⟨b1, b2, b3, b4, b5, b6⟩ := ih (incrementHoursAction s) (a7.trans hl) a2 (by omega)
    exact ⟨by omega, b2, b3.trans a3, b4.trans a4, b5.trans a5, b6.trans a6⟩

theorem digits_iterate_incHours (n : Nat) (s : State) (h0 : hourCells s = (0, 0))
    (hl : s.incrementHoursFlag = 0) (hn : n ≤ 99) :
    digits ((pressAndRelease Line.incHours)^[n] s)
      = (n / 10, n % 10, s.minutesTENS, s.minutesUNITS, s.secondsTENS, s.secondsUNITS) := by
  simp only [hourCells, Prod.mk.injEq] at h0
  obtain ⟨b1, b2, b3, b4, b5, b6⟩ :=
    iterate_incHours n s hl (by omega) (by simp only [hoursValue]; omega)
  simp only [hoursValue] at b1
  simp only [digits, Prod.mk.injEq]
  refine ⟨?_, ?_, b3, b4, b5, b6⟩ <;> omega

/-- C11 (no wrap in the hour-increment block): from 00:00:00, 24 sustained presses of
the hour-increment button, with no tick in between, leave the hour cells at 2 and 4
(the display shows 24:00:00), not at 0 and 0: lines 270-275 carry the units into
the tens and never test the hours against 24, as the tick path does on line 156. -/
theorem C11_24_hour_presses_show_24 :
    digits ((pressAndRelease Line.incHours)^[24] initialState) = (2, 4, 0, 0, 0, 0) ∧
      hourCells ((pressAndRelease Line.incHours)^[24] initialState) ≠ (0, 0) := by
  have h := digits_iterate_incHours 24 initialState rfl rfl (by decide)
  refine ⟨h, ?_⟩
  simp only [digits, Prod.mk.injEq] at h
  simp only [hourCells, ne_eq, Prod.mk.injEq]
  omega

/-- C12 (counterexample): at 01:00:00 a press edge on the second-decrement line
changes no digit; it does not give 00:59:59. -/
theorem C12_second_decrement_at_01_00_00 :
    validTime (atTime 0 1 0 0 0 0) ∧ (atTime 0 1 0 0 0 0).decrementSecondsFlag = 0 ∧
      digits (poll Line.decSeconds true true (atTime 0 1 0 0 0 0)) = (0, 1, 0, 0, 0, 0) ∧
      digits (poll Line.decSeconds true true (atTime 0 1 0 0 0 0)) ≠ (0, 0, 5, 9, 5, 9) :=
  ⟨by decide, rfl, rfl, by decide⟩

/-- C12 (amended): for every valid time whose seconds are 00, a press edge on the
second-decrement line borrows from the minutes only: if the minutes are not 00 it
leaves the hours, shows one minute less and seconds 59; if the minutes are 00 it
changes no digit cell, whatever the hours. -/
theorem C12_second_decrement_borrows_from_minutes_only (s : State) (hv : validTime s)
    (hs : secondsValue s = 0) (hl : s.decrementSecondsFlag = 0) :
    (minutesValue s ≠ 0 →
        hourCells (poll Line.decSeconds true true s) = hourCells s ∧
        minutesValue (poll Line.decSeconds true true s) + 1 = minutesValue s ∧
        (poll Line.decSeconds true true s).minutesUNITS ≤ 9 ∧
        (poll Line.decSeconds true true s).secondsTENS = 5 ∧
        (poll Line.decSeconds true true s).secondsUNITS = 9) ∧
      (minutesValue s = 0 → digits (poll Line.decSeconds true true s) = digits s) := by
  rw [poll_edge Line.decSeconds s hl]
  obtain ⟨su, st, mu, mt, hu', ht', pf, isr, f1, f2, f3, f4, f5, f6, cm, tf, d0, p0, p4, p5⟩ := s
  simp only [validTime, secondsValue, minutesValue, hourCells, digits, action, setLatch,
    decrementSecondsAction, State.setDecrementSecondsFlag, State.setSecondsUNITS,
    State.setSecondsTENS, State.setMinutesUNITS, State.setMinutesTENS] at *
  obtain ⟨rfl, rfl⟩ : su = 0 ∧ st = 0 := by omega
  constructor
  · intro hm
    split_ifs <;> first | omega | (dsimp only; refine ⟨rfl, ?_, ?_, rfl, rfl⟩ <;> omega)
  · intro hm
    obtain ⟨rfl, rfl⟩ : mu = 0 ∧ mt = 0 := by omega
    simp

/-- Witness for C12: 01:20:00 becomes 01:19:59. -/
theorem C12_second_decrement_borrows_from_minutes_only_witness :
    digits (poll Line.decSeconds true true (atTime 0 1 2 0 0 0)) = (0, 1, 1, 9, 5, 9) ∧
      minutesValue (poll Line.decSeconds true true (atTime 0 1 2 0 0 0)) + 1
        = minutesValue (atTime 0 1 2 0 0 0) :=
  ⟨rfl, ((C12_second_decrement_borrows_from_minutes_only (atTime 0 1 2 0 0 0)
    (by decide) rfl rfl).1 (by decide)).2.1⟩

/-- C13 (stray assignment on line 413): at 01:00:00 a press edge on the
minute-decrement line borrows one hour, sets the minutes to 59 and also sets
`secondsUNITS` to 9, showing 00:59:09: the seconds are not left unchanged. -/
theorem C13_minute_decrement_at_01_00_00 :
    validTime (atTime 0 1 0 0 0 0) ∧ (atTime 0 1 0 0 0 0).decrementMinutesFlag = 0 ∧
      digits (poll Line.decMinutes true true (atTime 0 1 0 0 0 0)) = (0, 0, 5, 9, 0, 9) ∧
      (poll Line.decMinutes true true (atTime 0 1 0 0 0 0)).secondsUNITS
        ≠ (atTime 0 1 0 0 0 0).secondsUNITS :=
  ⟨by decide, rfl, rfl, by decide⟩

/-! ## Mode toggle, long runs and range of the adjustments -/

theorem xor_one_twice (c : Nat) : Nat.xor (Nat.xor c 1) 1 = c :=
  Nat.xor_cancel_right 1 c

theorem toggleAction_frame (s : State) :
    (toggleAction s).countMode = Nat.xor s.countMode 1 ∧ digits (toggleAction s) = digits s ∧
      (toggleAction s).pauseFlag = s.pauseFlag ∧ alarm (toggleAction s) = alarm s ∧
      (toggleAction s).toggleFlag = s.toggleFlag :=
  ⟨rfl, rfl, rfl, rfl, rfl⟩

/-- C15: a press edge on the mode-toggle line (latch idle, both samples low) replaces
`countMode` by `countMode ^ 1`, so 0 becomes 1 and 1 becomes 0, and leaves the six
digit cells, the pause flag and the alarm output unchanged; two sustained presses
restore the original mode; and toggling at 00:10:00 while running in count-up mode,
then 5 ticks, shows 00:09:55. -/
theorem C15_toggle_flips_mode_only (s : State) (hl : s.toggleFlag = 0) :
    (poll Line.toggle true true s).countMode = Nat.xor s.countMode 1 ∧
      (s.countMode = 0 → (poll Line.toggle true true s).countMode = 1) ∧
      (s.countMode = 1 → (poll Line.toggle true true s).countMode = 0) ∧
      digits (poll Line.toggle true true s) = digits s ∧
      (poll Line.toggle true true s).pauseFlag = s.pauseFlag ∧
      alarm (poll Line.toggle true true s) = alarm s ∧
      (pressAndRelease Line.toggle (pressAndRelease Line.toggle s)).countMode = s.countMode ∧
      (digits s = (0, 0, 1, 0, 0, 0) → s.countMode = 0 → s.pauseFlag = 0 →
        digits (ticks 5 (poll Line.toggle true true s)) = (0, 0, 0, 9, 5, 5)) := by
  have e : poll Line.toggle true true s = toggleAction (s.setToggleFlag 1) :=
    poll_edge Line.toggle s hl
  have e1 : pressAndRelease Line.toggle s = toggleAction s :=
    pressAndRelease_eq Line.toggle s hl
  have e2 : pressAndRelease Line.toggle (toggleAction s) = toggleAction (toggleAction s) :=
    pressAndRelease_eq Line.toggle (toggleAction s) hl
  have hx : (poll Line.toggle true true s).countMode = Nat.xor s.countMode 1 := by
    rw [e]; rfl
  refine ⟨hx, ?_, ?_, ?_, ?_, ?_, ?_, ?_⟩
  · intro h; rw [hx, h]; rfl
  · intro h; rw [hx, h]; rfl
  · rw [e]; rfl
  · rw [e]; rfl
  · rw [e]; rfl
  · rw [e1, e2]
    exact xor_one_twice s.countMode
  · intro hd hm hr
    have hv : validTime (poll Line.toggle true true s) := by
      rw [e]
      simp only [digits, Prod.mk.injEq] at hd
      simp only [validTime, toggleAction, State.setCountMode, State.setToggleFlag]
      omega
    have ht : totalSeconds (poll Line.toggle true true s) = 600 := by
      rw [e]
      simp only [digits, Prod.mk.injEq] at hd
      simp only [totalSeconds, toggleAction, State.setCountMode, State.setToggleFlag]
      omega
    have hp : (poll Line.toggle true true s).pauseFlag = 0 := by rw [e]; exact hr
    have hc : (poll Line.toggle true true s).countMode ≠ 0 := by
      rw [hx, hm]; decide
    obtain ⟨k1, k2, -, -⟩ := ticks_down 5 _ hv (by omega) hp hc
    simp only [validTime, totalSeconds] at k1 k2 ht
    simp only [digits, Prod.mk.injEq]
    omega

/-- Witness for C15 at 00:10:00, count-up, running. -/
theorem C15_toggle_flips_mode_only_witness :
    (poll Line.toggle true true (atTime 0 0 1 0 0 0)).countMode = 1 ∧
      digits (ticks 5 (poll Line.toggle true true (atTime 0 0 1 0 0 0))) = (0, 0, 0, 9, 5, 5) :=
  ⟨(C15_toggle_flips_mode_only (atTime 0 0 1 0 0 0) rfl).2.1 rfl,
    (C15_toggle_flips_mode_only (atTime 0 0 1 0 0 0) rfl).2.2.2.2.2.2.2 rfl rfl rfl⟩

theorem digits_ticks_within_hour (h : Nat × Nat) (n : Nat) (s : State) (hs : onTheHour h s)
    (hn : n ≤ 3599) :
    digits (ticks n s) = (h.1, h.2, n / 600, n / 60 % 10, n % 60 / 10, n % 10) := by
  obtain ⟨hr, hm, hh, h0⟩ := hs
  obtain ⟨k1, k2, k3, -, -⟩ :=
    ticks_up_low n s hr hm (validMinSec_of_zero _ h0) (by omega)
  rw [hh] at k3
  simp only [hourCells, Prod.ext_iff] at k3
  simp only [validMinSec] at k1
  simp only [secondsOfHour] at k2 h0
  simp only [digits, Prod.mk.injEq]
  omega

theorem onTheHour_after_3600 : onTheHour (0, 1) (ticks 3600 initialState) :=
  ticks_3600 (0, 0) initialState onTheHour_initialState

/-- C16: from the initial state 00:00:00, count-up, running, 3661 ticks with no other
event show 01:01:01. -/
theorem C16_ticks_3661 :
    digits (ticks 3661 initialState) = (0, 1, 0, 1, 0, 1) := by
  have e : ticks 3661 initialState = ticks 61 (ticks 3600 initialState) :=
    ticks_add 3600 61 initialState
  rw [e]
  exact digits_ticks_within_hour (0, 1) 61 _ onTheHour_after_3600 (by decide)

/-- C18: for every state showing 23:59:59 (hour cells 2 and 3, minutes 59, seconds
59), one tick processed while running in count-up mode shows 00:00:00. -/
theorem C18_tick_at_23_59_59 (s : State) (hd : digits s = (2, 3, 5, 9, 5, 9))
    (hr : s.pauseFlag = 0) (hm : s.countMode = 0) :
    digits (on_tick s) = (0, 0, 0, 0, 0, 0) := by
  rw [on_tick_up s hr hm]
  simp only [digits, Prod.mk.injEq] at hd
  obtain ⟨h1, h2, h3, h4, h5, h6⟩ := hd
  simp [digits, advance_one_second, hoursCarry, hoursElseIf, incr, State.setIsr,
    State.setSecondsUNITS, State.setSecondsTENS, State.setMinutesUNITS, State.setMinutesTENS,
    State.setHoursUNITS, State.setHoursTENS, State.setDdrdPD0, State.setPortdPD0,
    h1, h2, h3, h4, h5, h6]

/-- Witness for C18 at 23:59:59 with every flag as on entry to the loop. -/
theorem C18_tick_at_23_59_59_witness :
    digits (on_tick (atTime 2 3 5 9 5 9)) = (0, 0, 0, 0, 0, 0) :=
  C18_tick_at_23_59_59 (atTime 2 3 5 9 5 9) rfl rfl rfl
/-- C17 (no range check in the increment blocks): at the valid time 00:59:00 a press
edge on the minute-increment line leaves `minutesTENS` at 6 (the display shows
00:60:00), outside the range 0-5 declared on line 30 and not a valid time: lines
293-298 carry the units into the tens and never test the tens against 6, as the
tick path does on line 152. -/
theorem C17_minute_increment_at_00_59_00 :
    validTime (atTime 0 0 5 9 0 0) ∧ (atTime 0 0 5 9 0 0).incrementMinutesFlag = 0 ∧
      digits (poll Line.incMinutes true true (atTime 0 0 5 9 0 0)) = (0, 0, 6, 0, 0, 0) ∧
      ¬ validTime (poll Line.incMinutes true true (atTime 0 0 5 9 0 0)) :=
  ⟨by decide, rfl, rfl, by decide⟩

/-- C19: for every valid time with hours `h > 0`, a press edge on the hour-decrement
line shows `h - 1` hours (borrowing from the tens when the units are 0), stays
valid, and leaves the minutes, the seconds and the alarm output unchanged; and for
every state whose hour cells are both 0, any poll of the line changes no digit cell
and leaves the alarm output as it was. -/
theorem C19_hour_decrement_clamps (s : State) :
    (validTime s → s.decrementHoursFlag = 0 → 0 < hoursValue s →
        hoursValue (poll Line.decHours true true s) + 1 = hoursValue s ∧
        (poll Line.decHours true true s).hoursUNITS ≤ 9 ∧
        validTime (poll Line.decHours true true s) ∧
        (poll Line.decHours true true s).minutesTENS = s.minutesTENS ∧
        (poll Line.decHours true true s).minutesUNITS = s.minutesUNITS ∧
        (poll Line.decHours true true s).secondsTENS = s.secondsTENS ∧
        (poll Line.decHours true true s).secondsUNITS = s.secondsUNITS ∧
        alarm (poll Line.decHours true true s) = alarm s) ∧
      (hourCells s = (0, 0) → ∀ p1 p2 : Bool,
        digits (poll Line.decHours p1 p2 s) = digits s ∧
        alarm (poll Line.decHours p1 p2 s) = alarm s) := by
  obtain ⟨su, st, mu, mt, hu', ht', pf, isr, f1, f2, f3, f4, f5, f6, cm, tf, d0, p0, p4, p5⟩ := s
  simp only [validTime, hoursValue, hourCells, digits, alarm, poll, pollDecrementHours,
    State.setHoursUNITS, State.setHoursTENS, State.setDecrementHoursFlag, Prod.mk.injEq]
  constructor
  · intro hv hl hpos
    simp only [hl]
    split_ifs <;> first | omega | (dsimp only; refine ⟨?_, ?_, ?_, rfl, rfl, rfl, rfl, rfl⟩ <;> omega)
  · rintro ⟨rfl, rfl⟩ p1 p2
    split_ifs <;> simp_all

/-- Witness for C19: 10:12:34 becomes 09:12:34, and 00:00:00 stays. -/
theorem C19_hour_decrement_clamps_witness :
    digits (poll Line.decHours true true (atTime 1 0 1 2 3 4)) = (0, 9, 1, 2, 3, 4) ∧
      hoursValue (poll Line.decHours true true (atTime 1 0 1 2 3 4)) + 1
        = hoursValue (atTime 1 0 1 2 3 4) ∧
      digits (poll Line.decHours true true initialState) = digits initialState :=
  ⟨rfl, ((C19_hour_decrement_clamps (atTime 1 0 1 2 3 4)).1 (by decide) rfl (by decide)).1,
    ((C19_hour_decrement_clamps initialState).2 rfl true true).1⟩

end Stopwatch
